import Mathlib

/-!
Verification of the OrderCat order-distribution Firebase functions.

This file gives a shallow embedding, in Lean 4, of the pure logic of the
TypeScript sources of the repository:

* `shared/database-helpers.ts` (the variant at `src/unnamed/part_001`,
  lines 1-296: `getItemQuantity`, the balanced scheduler helpers
  `createDistributedPurchaseForPointOfSale` and `createPurchase`),
* `shared/distribute-order.ts` (in `src/README.md`: `distributeItems`,
  `distributeOrder`, `distributeOrderWithoutPurchase`),
* the purchase trigger `onPurchaseCreated` (the `onWrite` variant at
  `src/unnamed/part_002`, lines 1-376, with `loadPurchaseItems`),
* the availability reconciler (`src/unnamed/part_003`),
* the refund handler (`src/functions/refundHandler/index.ts`) and the
  notification service (`src/shared/notifications.ts`).

Modelling conventions:

* JavaScript numbers that the code floors and finiteness-checks are
  modelled as `Int` (so `Math.floor` is the identity and `Number.isFinite`
  always holds); money amounts become exact integers.
* `undefined`/`null` document fields are `Option` values; the JS `??`
  operator is `Option.orElse`/`Option.getD` and the falsy `||` operator on
  strings and numbers is spelled out (`strOr`, `orNullStr`, `orNullInt`),
  since `"" || x` and `0 || x` pick `x`.
* Firestore collections are association lists in document order; queries,
  batched writes and transactions become pure functions from state to
  state.  A batched write or transaction is a single Lean function, which
  models its atomicity.
* The stable `Array.prototype.sort` by open-order count followed by
  taking element 0 is modelled by a fold that keeps the earliest minimum.
-/

namespace OrderCat

/-! ### JavaScript-style helpers for falsy coercions -/

/-- JS `a || b` for an optional string `a` and string default `b`:
`undefined` and `""` are falsy. -/
def strOr (a : Option String) (b : String) : String :=
  match a with
  | some v => if v = "" then b else v
  | none => b

/-- JS `a || null` for an optional string: `""` collapses to `null`. -/
def orNullStr (a : Option String) : Option String :=
  match a with
  | some v => if v = "" then none else some v
  | none => none

/-- JS `a || null` for an optional number: `0` collapses to `null`. -/
def orNullInt (a : Option Int) : Option Int :=
  match a with
  | some v => if v = 0 then none else some v
  | none => none

/-! ### Data model (shared/types.ts) -/

/-- One element of an `entries[]` array on a purchase item document. -/
structure ItemEntry where
  quantity : Option Int := none
  selectedExtras : Option (List String) := none
  excludedIngredients : Option (List String) := none
deriving DecidableEq, Repr

/-- The `Item` interface, extended with the legacy quantity carriers
`quantity`, `entries` and `__calculatedQuantity` used by
`getItemQuantity` (`ItemWithQuantityField` in database-helpers.ts). -/
structure Item where
  id : String
  name : Option String := none
  price : Option Int := none
  count : Option Int := none
  category : Option String := none
  categoryName : Option String := none
  soldOut : Option Bool := none
  isAvailable : Option Bool := none
  selectedExtras : List String := []
  excludedIngredients : List String := []
  quantity : Option Int := none
  entries : List ItemEntry := []
  calculatedQuantity : Option Int := none
deriving DecidableEq, Repr

/-- The `ServingPoint` interface. -/
structure ServingPoint where
  id : String
  name : String
  location : String
  areaName : Option String := none
  capacity : Int := 0
deriving DecidableEq, Repr

/-- The `PointOfSale` interface (with its `availableItems` snapshot). -/
structure PointOfSale where
  id : String
  name : String
  description : Option String := none
  location : String := ""
  availableItems : List Item := []
deriving DecidableEq, Repr

/-- The `DistributionMode` enum. -/
inductive DistributionMode where
  | balanced
  | grouped
deriving DecidableEq, Repr

/-- One element of `DistributeOrderResponse.distributedPurchases`. -/
structure DistributedPurchaseInfo where
  pointOfSaleId : String
  pointOfSaleName : String
  orderId : String
  itemsCount : Nat
deriving DecidableEq, Repr

/-- The `DistributeOrderResponse` interface. -/
structure DistributeOrderResponse where
  success : Bool
  purchaseId : String
  distributedPurchases : List DistributedPurchaseInfo
  error : Option String := none
deriving DecidableEq, Repr

/-! ### getItemQuantity (database-helpers.ts, part_001 lines 18-57) -/

/-- Function `getItemQuantity`: collapse the three historical quantity carriers to
one non-negative integer.  Priority: `__calculatedQuantity`, then
`quantity ?? (positive entries sum) ?? count ?? 1`; non-positive yields 0.
`Int.toNat` is JS `Math.max(0, Math.floor v)` on our integer model. -/
def getItemQuantity (item : Item) : Nat :=
  match item.calculatedQuantity with
  | some q => q.toNat
  | none =>
    let entriesSum : Int := item.entries.foldl
      (fun acc e =>
        let v := e.quantity.getD 0
        if v ≤ 0 then acc else acc + v) 0
    let entriesQuantity : Option Int := if 0 < entriesSum then some entriesSum else none
    let rawValue : Int :=
      ((item.quantity.orElse fun _ => entriesQuantity).orElse fun _ => item.count).getD 1
    if rawValue ≤ 0 then 0 else rawValue.toNat

/-! ### Balanced-mode bucketing (distribute-order.ts, distributeItems) -/

/-- The call `storesWithOpenOrders.sort((a,b) => a.count - b.count)` followed by
taking element 0: the sort is stable, so the selected store is the first
one attaining the minimal open-order count, which this fold computes. -/
def selectStore (availableStores : List PointOfSale) (openCount : String → Nat) :
    Option PointOfSale :=
  match availableStores with
  | [] => none
  | s :: rest =>
    some (rest.foldl (fun best cand =>
      if openCount cand.id < openCount best.id then cand else best) s)

/-- The call `storeOrdersMap.get(store).push(item)` on a JS `Map` (insertion
ordered): append to the bucket of the store, creating it at the end if new. -/
def addToBucket (buckets : List (PointOfSale × List Item)) (store : PointOfSale)
    (item : Item) : List (PointOfSale × List Item) :=
  match buckets with
  | [] => [(store, [item])]
  | b :: rest =>
    if b.1 = store then (b.1, b.2 ++ [item]) :: rest
    else b :: addToBucket rest store item

/-- The per-item loop of `distributeItems` in balanced mode: filter the
stores carrying the item, pick the least busy one, bucket the item there;
items carried nowhere are dropped with a warning.  `openCount` is the
open-order count query against the store state at call start — the
bucketed orders are only written after this loop finishes, so every
`countOpenOrdersForStore` read observes that same state. -/
def bucketItems (itemList : List Item) (pointsOfSale : List PointOfSale)
    (openCount : String → Nat) : List (PointOfSale × List Item) :=
  itemList.foldl (fun buckets item =>
    let availableStores := pointsOfSale.filter
      (fun store => store.availableItems.any (fun a => a.id = item.id))
    match selectStore availableStores openCount with
    | some store => addToBucket buckets store item
    | none => buckets) []

/-! ### createDistributedPurchaseForPointOfSale (part_001 lines 159-233) -/

/-- The grouping key: `id + "_" + extras.join(",") + "_" + excluded.join(",")`
(arrays joined in the order they carry, not sorted). -/
def itemKey (item : Item) : String :=
  item.id ++ "_" ++ String.intercalate "," item.selectedExtras ++ "_"
    ++ String.intercalate "," item.excludedIngredients

/-- Add `q` units of `item` under `key` to the insertion-ordered group
map; an existing group keeps its first item (with `count` and
`__calculatedQuantity` bumped), a new group stores the normalized item. -/
def bumpGroup (acc : List (String × Item × Nat)) (key : String) (q : Nat)
    (item : Item) : List (String × Item × Nat) :=
  match acc with
  | [] =>
    [(key, { item with count := some (Int.ofNat q), calculatedQuantity := some (Int.ofNat q) }, q)]
  | (k, it, c) :: rest =>
    if k = key then
      (k, { it with count := some (Int.ofNat (c + q)),
                    calculatedQuantity := some (Int.ofNat (c + q)) }, c + q) :: rest
    else (k, it, c) :: bumpGroup rest key q item

/-- The grouping loop of `createDistributedPurchaseForPointOfSale`:
group by `itemKey`, summing `getItemQuantity`; zero-quantity items are
skipped. -/
def groupDistributedItems (items : List Item) : List (String × Item × Nat) :=
  items.foldl (fun acc item =>
    let q := getItemQuantity item
    if q = 0 then acc else bumpGroup acc (itemKey item) q item) []

/-- An item document written under `…/Orders/{orderId}/Items/{key}`. -/
structure DistItemDoc where
  id : String
  name : Option String
  price : Option Int
  count : Nat
  category : Option String
  categoryName : Option String
  selectedExtras : List String
  excludedIngredients : List String
deriving DecidableEq, Repr

/-- The `batch.set(itemRef, {...})` payload for one group. -/
def toDistItemDoc (item : Item) (c : Nat) : DistItemDoc :=
  { id := item.id,
    name := orNullStr item.name,
    price := orNullInt item.price,
    count := c,
    category := orNullStr item.category,
    categoryName := orNullStr item.categoryName,
    selectedExtras := item.selectedExtras,
    excludedIngredients := item.excludedIngredients }

/-- All item documents one distributed order receives for its bucket. -/
def createDistributedItems (items : List Item) : List (String × DistItemDoc) :=
  (groupDistributedItems items).map (fun g => (g.1, toDistItemDoc g.2.1 g.2.2))

/-- The distributed-order document written at
`Events/{e}/Points-of-Sale/{p}/Orders/{orderId}`. -/
structure OrderDoc where
  id : String
  orderStatus : String
  servingPointName : String
  servingPointLocation : String
  note : Option String
deriving DecidableEq, Repr

/-- One atomic batched write of `createDistributedPurchaseForPointOfSale`:
the order document plus its item documents under one POS. -/
structure DistributedOrderWrite where
  posId : String
  posName : String
  order : OrderDoc
  items : List (String × DistItemDoc)
deriving DecidableEq, Repr

/-- Function `distributeItems`: in balanced mode, bucket the items and materialize
one distributed order per non-empty bucket; grouped mode throws. -/
def distributeItems (itemList : List Item) (pointsOfSale : List PointOfSale)
    (distributionMode : DistributionMode) (servingPoint : ServingPoint)
    (originalOrderId : String) (openCount : String → Nat) (note : Option String) :
    Except String (List DistributedPurchaseInfo × List DistributedOrderWrite) :=
  match distributionMode with
  | .balanced =>
    let buckets := bucketItems itemList pointsOfSale openCount
    let writes := buckets.map (fun b =>
      { posId := b.1.id,
        posName := b.1.name,
        order := { id := originalOrderId, orderStatus := "open",
                   servingPointName := servingPoint.name,
                   servingPointLocation := servingPoint.location,
                   note := orNullStr note },
        items := createDistributedItems b.2 })
    let infos := buckets.map (fun b =>
      { pointOfSaleId := b.1.id,
        pointOfSaleName := b.1.name,
        orderId := originalOrderId,
        itemsCount := b.2.length })
    .ok (infos, writes)
  | .grouped => .error "Grouped distribution mode not yet implemented"

/-- Function `distributeOrderWithoutPurchase`: validation, empty-POS check, then
`distributeItems`; every thrown error is caught and returned as a
`success = false` response (`error.message` or `Unknown error occurred`),
so this function never throws.  Returns the response together with the
distributed-order writes it committed. -/
def distributeOrderWithoutPurchase (purchaseId eventId : String) (items : List Item)
    (servingPoint : Option ServingPoint) (distributionMode : DistributionMode)
    (eventStores : List PointOfSale) (openCount : String → Nat) (note : Option String) :
    DistributeOrderResponse × List DistributedOrderWrite :=
  match servingPoint with
  | none =>
    ({ success := false, purchaseId := purchaseId, distributedPurchases := [],
       error := some "Missing required fields" }, [])
  | some sp =>
    if eventId = "" ∨ items.isEmpty ∨ purchaseId = "" then
      ({ success := false, purchaseId := purchaseId, distributedPurchases := [],
         error := some "Missing required fields" }, [])
    else if eventStores.isEmpty then
      ({ success := false, purchaseId := purchaseId, distributedPurchases := [],
         error := some "No Points of Sale found for this event" }, [])
    else
      match distributeItems items eventStores distributionMode sp purchaseId openCount note with
      | .ok (infos, writes) =>
        ({ success := true, purchaseId := purchaseId, distributedPurchases := infos }, writes)
      | .error msg =>
        ({ success := false, purchaseId := purchaseId, distributedPurchases := [],
           error := some (if msg = "" then "Unknown error occurred" else msg) }, [])

/-! ### createPurchase and the distributeOrder RPC (part_001 lines 238-296,
distribute-order.ts lines 310-366) -/

/-- Sum quantities per item id in insertion order (`itemQuantities` map of
`createPurchase`); zero-quantity items are skipped before the bump. -/
def bumpQty (acc : List (String × Nat)) (id : String) (q : Nat) : List (String × Nat) :=
  match acc with
  | [] => [(id, q)]
  | (k, c) :: rest => if k = id then (k, c + q) :: rest else (k, c) :: bumpQty rest id q

/-- The `itemQuantities` grouping loop of `createPurchase`. -/
def purchaseItemQuantities (items : List Item) : List (String × Nat) :=
  items.foldl (fun acc item =>
    let q := getItemQuantity item
    if q = 0 then acc else bumpQty acc item.id q) []

/-- A main purchase document at `Events/{e}/Orders/{purchaseId}` together
with its `Items` sub-collection (each item doc is `{itemId, quantity}`). -/
structure PurchaseRecord where
  servingPointId : Option String
  userId : Option String
  note : Option String
  items : List (String × Nat)
deriving DecidableEq, Repr

/-- The state of the main `Orders` collection of the event. -/
structure MainStore where
  purchases : List (String × PurchaseRecord)
deriving Repr

/-- Function `createPurchase`: one batched write of the purchase document plus one
item doc per distinct item id (ids that are the empty string are skipped
by the `if (itemId)` truthiness check). -/
def createPurchase (items : List Item) (userId : Option String)
    (servingPoint : Option ServingPoint) (note : Option String) : PurchaseRecord :=
  { servingPointId := orNullStr (servingPoint.map (fun sp => sp.id)),
    userId := orNullStr userId,
    note := orNullStr note,
    items := (purchaseItemQuantities items).filter (fun e => e.1 ≠ "") }

/-- Function `distributeOrder` (the RPC body): validate, generate `purchaseId`
(passed in as `uuid`), write the main purchase via `createPurchase`, then
call `distributeOrderWithoutPurchase`.  There is no rollback: the purchase
write persists even when the subsequent distribution fails.  The outer
`catch` never fires because `distributeOrderWithoutPurchase` returns its
errors. -/
def distributeOrder (eventId : String) (items : List Item)
    (servingPoint : Option ServingPoint) (userId : Option String)
    (distributionMode : DistributionMode) (note : Option String)
    (uuid : String) (eventStores : List PointOfSale) (openCount : String → Nat)
    (st : MainStore) :
    DistributeOrderResponse × MainStore × List DistributedOrderWrite :=
  if eventId = "" ∨ items.isEmpty ∨ servingPoint.isNone then
    ({ success := false, purchaseId := "", distributedPurchases := [],
       error := some "Missing required fields: eventId, items, or servingPoint" }, st, [])
  else
    let record := createPurchase items userId servingPoint note
    let st' : MainStore := { purchases := st.purchases ++ [(uuid, record)] }
    let r := distributeOrderWithoutPurchase uuid eventId items servingPoint
      distributionMode eventStores openCount note
    (r.1, st', r.2)

/-! ### loadPurchaseItems (part_002 lines 99-234) -/

/-- A document of the purchase `Items` sub-collection as the trigger
reads it. -/
structure PurchaseItemDoc where
  docId : String
  itemId : Option String := none
  name : Option String := none
  price : Option Int := none
  quantity : Option Int := none
  count : Option Int := none
  category : Option String := none
  categoryName : Option String := none
  selectedExtras : Option (List String) := none
  excludedIngredients : Option (List String) := none
  entries : Option (List ItemEntry) := none
deriving DecidableEq, Repr

/-- One canonical line item pushed by `pushItemInstances`: either the
catalog details overridden with id, `count = 1` and the per-entry
extras/excluded, or the fallback built from the purchase-item doc. -/
def mkInstance (itemId : String) (doc : PurchaseItemDoc) (extras excluded : List String)
    (details : Option Item) : Item :=
  match details with
  | some det =>
    { det with id := itemId, count := some 1,
               selectedExtras := extras, excludedIngredients := excluded }
  | none =>
    { id := itemId,
      name := some (strOr doc.name "Unknown Item"),
      price := some (doc.price.getD 0),
      count := some 1,
      category := doc.category,
      categoryName := doc.categoryName,
      selectedExtras := extras,
      excludedIngredients := excluded }

/-- The per-document body of `loadPurchaseItems`: compute the document
quantity (`quantity ?? count`, else the positive entries sum, else 1),
emit one canonical line item per entry unit, then `max(quantity −
generated, 0)` more carrying the doc-level extras/excluded.  `details` is
the result of `getItemDetails` for the item id (`none` when the canonical
item document is missing). -/
def normalizePurchaseItemDoc (doc : PurchaseItemDoc) (details : Option Item) : List Item :=
  let itemId := strOr doc.itemId doc.docId
  let baseExtras := doc.selectedExtras.getD []
  let baseExcluded := doc.excludedIngredients.getD []
  let entries := doc.entries.getD []
  let quantity0 : Int :=
    match doc.quantity.orElse fun _ => doc.count with
    | some v => if 0 < v then v else 0
    | none => 0
  let quantity1 : Int :=
    if quantity0 ≤ 0 ∧ entries.length > 0 then
      entries.foldl (fun sum e =>
        let v := e.quantity.getD 0
        if v ≤ 0 then sum else sum + v) 0
    else quantity0
  let quantity : Int := if quantity1 ≤ 0 then 1 else quantity1
  let entryPass : List Item × Int := entries.foldl (fun acc e =>
    let eRaw : Int := e.quantity.getD 1
    let eQty : Int := if 0 < eRaw then eRaw else 0
    if eQty ≤ 0 then acc
    else
      let extras := e.selectedExtras.getD baseExtras
      let excluded := e.excludedIngredients.getD baseExcluded
      (acc.1 ++ List.replicate eQty.toNat (mkInstance itemId doc extras excluded details),
       acc.2 + eQty)) ([], 0)
  let remaining : Int := max (quantity - entryPass.2) 0
  entryPass.1 ++ List.replicate remaining.toNat (mkInstance itemId doc baseExtras baseExcluded details)

/-- Function `loadPurchaseItems` over the whole sub-collection: concatenate the
canonical items of each document (each paired with its catalog lookup). -/
def loadPurchaseItems (docs : List (PurchaseItemDoc × Option Item)) : List Item :=
  (docs.map (fun d => normalizePurchaseItemDoc d.1 d.2)).flatten

/-! ### The purchase-write orchestrator (part_002 lines 271-376) -/

/-- The fields of a purchase document the trigger inspects.  `isPaid`
models `data.isPaid === true` and `distributed` the truthiness check
`if (purchaseData.distributed)`. -/
structure PurchaseData where
  isPaid : Bool := false
  distributed : Bool := false
  servingPointId : Option String := none
  note : Option String := none
deriving DecidableEq, Repr

/-- The externally visible outcome of one `onPurchaseCreated` (onWrite)
invocation: which writes it performs on the purchase document and whether
it rethrows.  `writeFailureAndRethrow` is the `catch` branch, which writes
`{distributionError, distributionFailed: true}` and rethrows; it is only
reachable when the body throws, and `distributeOrderWithoutPurchase`
returns its errors instead of throwing. -/
inductive OrchestratorAction where
  | skip
  | markDistributed
  | logFailure (error : Option String)
  | writeFailureAndRethrow (msg : String)
deriving DecidableEq, Repr

/-- The `onPurchaseCreated` onWrite trigger body: the guard chain
(deletion, paid edge, `distributed` marker, serving point, items), then
the scheduler call, then either the `distributed` mark (success) or a
`console.error` log (returned failure). -/
def onPurchaseWrite (before after : Option PurchaseData)
    (servingPointLookup : String → Option ServingPoint)
    (purchaseItemDocs : List (PurchaseItemDoc × Option Item))
    (distributionMode : DistributionMode) (eventStores : List PointOfSale)
    (openCount : String → Nat) (purchaseId eventId : String) :
    OrchestratorAction × List DistributedOrderWrite :=
  match after with
  | none => (.skip, [])
  | some a =>
    if ¬ a.isPaid then (.skip, [])
    else if (before.map (fun b => b.isPaid)).getD false then (.skip, [])
    else if a.distributed then (.skip, [])
    else
      match a.servingPointId with
      | none => (.skip, [])
      | some spId =>
        if spId = "" then (.skip, [])
        else
          match servingPointLookup spId with
          | none => (.skip, [])
          | some sp =>
            let items := loadPurchaseItems purchaseItemDocs
            if items.isEmpty then (.skip, [])
            else
              let r := distributeOrderWithoutPurchase purchaseId eventId items (some sp)
                distributionMode eventStores openCount a.note
              if r.1.success then (.markDistributed, r.2)
              else (.logFailure r.1.error, r.2)

/-! ### Concrete scenario inputs for the claims -/

/-- C2 scenario: a purchase that just flipped to paid, with a resolvable
serving point. -/
def c2After : PurchaseData := { isPaid := true, servingPointId := some "sp1" }

def c2Sp : ServingPoint := { id := "sp1", name := "Table 1", location := "inside" }

def c2Lookup : String → Option ServingPoint := fun s => if s = "sp1" then some c2Sp else none

def c2Docs : List (PurchaseItemDoc × Option Item) :=
  [({ docId := "x", itemId := some "x", quantity := some 1 }, none)]

/-- C3 scenario: same item id and the same extras up to ordering, but the
two arrays list them in different orders. -/
def c3Item1 : Item := { id := "x", selectedExtras := ["a", "b"], count := some 1 }

def c3Item2 : Item := { id := "x", selectedExtras := ["b", "a"], count := some 1 }

/-- C7 scenario: the purchase-item document
`{itemId: x, quantity: 3, entries: [{quantity: 1, selectedExtras: ["cheese"]}]}`. -/
def c7Doc : PurchaseItemDoc :=
  { docId := "x", itemId := some "x", quantity := some 3,
    entries := some [{ quantity := some 1, selectedExtras := some ["cheese"] }] }

/-! ### Availability reconciler (part_003) -/

/-- A POS-local item document, reduced to the field the reconciler
branches on (`isAvailable`; absent means available). -/
structure PosItemDoc where
  isAvailable : Option Bool := none
deriving DecidableEq, Repr

/-- Predicate `isItemFlagAvailable` and the trigger coercion (a present document is
available unless the field is the boolean `false`). -/
def isItemFlagAvailable (d : PosItemDoc) : Bool :=
  match d.isAvailable with
  | some b => b
  | none => true

/-- Function `syncGlobalItemAvailability` for one item: scan every POS of the
event (the source loop breaks at the first hit, which `List.any`
models); a POS counts when it carries the item (`itemDoc.exists`) with
`isAvailable !== false`.  The computed flag is then written to the
canonical `Items/{i}` document.  `posDocs` maps each POS id to its item
document for the fixed item `i`, or `none` when it does not carry it. -/
def syncGlobalItemAvailability (posDocs : List (String × Option PosItemDoc)) : Bool :=
  posDocs.any (fun e =>
    match e.2 with
    | none => false
    | some d => !(d.isAvailable == some false))

/-- Function `findCandidateStores`: every other POS carrying the item with an
available flag, annotated with its open-order count and sorted by count
ascending (stable, so ties keep enumeration order). -/
def findCandidateStores (posDocs : List (String × Option PosItemDoc)) (excludePosId : String)
    (openCount : String → Nat) : List (String × Nat) :=
  let candidates := posDocs.filterMap (fun e =>
    if e.1 = excludePosId then none
    else
      match e.2 with
      | none => none
      | some d => if isItemFlagAvailable d then some (e.1, openCount e.1) else none)
  candidates.insertionSort (fun a b => a.2 ≤ b.2)

/-- The reconciler-relevant store state for one fixed item: the per-POS
item documents and the canonical event-level `isAvailable` flag. -/
structure AvailState where
  posDocs : List (String × Option PosItemDoc)
  globalFlag : Option Bool
deriving DecidableEq, Repr

/-- Overwrite the item document at POS `p`. -/
def setPosDoc (docs : List (String × Option PosItemDoc)) (p : String)
    (d : Option PosItemDoc) : List (String × Option PosItemDoc) :=
  docs.map (fun e => if e.1 = p then (e.1, d) else e)

/-- One per-POS flag change processed to completion: the external write of
the new document at POS `p` followed by the `onPosItemAvailabilityChanged`
handler.  When the document did not exist before, the write is an
`onCreate` and the `onUpdate` handler does not fire.  When the coerced
flags are equal the handler is a no-op.  Otherwise every branch of the
handler (reactivation; deactivation without candidates: notify, mark for
canceling; deactivation with candidates: transfer open orders, which
never touches the POS item documents) ends by running
`syncGlobalItemAvailability` and persisting its result. -/
def availStep (openCount : String → Nat) (st : AvailState) (p : String)
    (after : PosItemDoc) : AvailState :=
  match st.posDocs.find? (fun e => e.1 = p) with
  | some (_, some before) =>
    let docs' := setPosDoc st.posDocs p (some after)
    let beforeAvailable := before.isAvailable.getD true
    let afterAvailable := after.isAvailable.getD true
    if beforeAvailable = afterAvailable then
      { posDocs := docs', globalFlag := st.globalFlag }
    else if afterAvailable then
      { posDocs := docs', globalFlag := some (syncGlobalItemAvailability docs') }
    else
      if (findCandidateStores docs' p openCount).isEmpty then
        { posDocs := docs', globalFlag := some (syncGlobalItemAvailability docs') }
      else
        { posDocs := docs', globalFlag := some (syncGlobalItemAvailability docs') }
  | _ => { posDocs := setPosDoc st.posDocs p (some after), globalFlag := st.globalFlag }

/-- A sequence of per-POS flag changes processed sequentially to
completion. -/
def processAvailChanges (openCount : String → Nat) (st : AvailState)
    (changes : List (String × PosItemDoc)) : AvailState :=
  changes.foldl (fun s c => availStep openCount s c.1 c.2) st

/-- The right-hand side of the claim: some POS of the event carries item `i`
with POS-local `isAvailable ≠ false`. -/
def carriesAvailableSomewhere (docs : List (String × Option PosItemDoc)) : Prop :=
  ∃ e ∈ docs, ∃ d, e.2 = some d ∧ d.isAvailable ≠ some false

/-! ### Open-order item migration (part_003, transferItemsForOrder) -/

/-- A distributed-order item document with the fields the migration and
refund code read and write. -/
structure ItemDocF where
  id : Option String := none
  itemId : Option String := none
  name : Option String := none
  price : Option Int := none
  quantity : Option Int := none
  count : Option Int := none
  category : Option String := none
  categoryName : Option String := none
  selectedExtras : Option (List String) := none
  excludedIngredients : Option (List String) := none
  status : Option String := none
deriving DecidableEq, Repr

/-- Function `extractCountFromItem`: the value `quantity ?? count ?? 0`, floored, with
non-positive values mapped to 0; an absent document counts 0. -/
def extractCountFromItem (data : Option ItemDocF) : Nat :=
  match data with
  | none => 0
  | some d =>
    let raw : Int := (d.quantity.orElse fun _ => d.count).getD 0
    if raw ≤ 0 then 0 else raw.toNat

/-- JS `a || b` on two optional strings (`""` is falsy). -/
def strOrOpt (a b : Option String) : Option String :=
  match a with
  | some v => if v = "" then b else some v
  | none => b

/-- Function `sanitizeItemData`: spread the source, ensure `itemId` (falling back
to `id`), set `quantity` to the new count, default the extras/excluded
arrays, and delete `count`, `id` and `categoryName`. -/
def sanitizeItemData (source : ItemDocF) (newCount : Nat) : ItemDocF :=
  { source with
      id := none,
      itemId := strOrOpt source.itemId source.id,
      quantity := some (newCount : Int),
      count := none,
      categoryName := none,
      selectedExtras := some (source.selectedExtras.getD []),
      excludedIngredients := some (source.excludedIngredients.getD []) }

/-- The per-item transaction of `transferItemsForOrder`: read the
destination item document (same doc id as the source), compute
`newCount = existing + source count`, set the sanitized payload at the
destination and delete the source — one atomic transaction, modelled as
one function returning the new source slot (deleted) and the new
destination document. -/
def migrateItemTxn (source : ItemDocF) (dest : Option ItemDocF) :
    Option ItemDocF × ItemDocF :=
  let existingCount := extractCountFromItem dest
  let newCount := existingCount + extractCountFromItem (some source)
  (none, sanitizeItemData source newCount)

/-! ### Refund propagation (functions/refundHandler/index.ts) -/

/-- The chunks the refund handler iterates over:
`for (i = 0; i < itemIds.length; i += 10) itemIds.slice(i, i + 10)`. -/
def chunksOf10 (l : List String) : List (List String) :=
  (List.range ((l.length + 9) / 10)).map (fun i => (l.drop (10 * i)).take 10)

/-- Whether the `in`-query over `itemId` matches a document: its `itemId`
field exists and equals one of the values of the chunk. -/
def itemIdMatches (d : ItemDocF) (chunk : List String) : Bool :=
  match d.itemId with
  | some v => chunk.contains v
  | none => false

/-- One chunk pass of `cancelItemsInOrderCollection`: every matched item
document is merged with `{status: "canceled", quantity: 0}`. -/
def cancelChunk (chunk : List String) (items : List (String × ItemDocF)) :
    List (String × ItemDocF) :=
  items.map (fun e =>
    if itemIdMatches e.2 chunk then
      (e.1, { e.2 with status := some "canceled", quantity := some 0 })
    else e)

/-- Function `cancelItemsInOrderCollection` over the `Items` collection of one order. -/
def cancelItemsInOrderCollection (itemIds : List String)
    (items : List (String × ItemDocF)) : List (String × ItemDocF) :=
  (chunksOf10 itemIds).foldl (fun its chunk => cancelChunk chunk its) items

/-- Function `recalculateOrderTotals`: sum `price * quantity` over the items whose
status (defaulted to `active`) is not `canceled` and whose quantity
(`quantity ?? count ?? 0`) is positive. -/
def recalculateOrderTotals (items : List (String × ItemDocF)) : Int :=
  items.foldl (fun total e =>
    if strOr e.2.status "active" = "canceled" then total
    else
      let price := e.2.price.getD 0
      let quantity := (e.2.quantity.orElse fun _ => e.2.count).getD 0
      if 0 < quantity then total + price * quantity else total) 0

/-- The `Items` collection of one order document together with its stored
`totalPrice` field. -/
structure OrderColl where
  items : List (String × ItemDocF)
  totalPrice : Option Int
deriving DecidableEq, Repr

/-- Cancel the notified items in one order collection and merge the
recomputed `totalPrice` back, as the handler does for the main order and
then for each POS copy. -/
def applyRefundToOrder (itemIds : List String) (oc : OrderColl) : OrderColl :=
  let items := cancelItemsInOrderCollection itemIds oc.items
  { items := items, totalPrice := some (recalculateOrderTotals items) }

/-- The store state the refund handler touches, scoped to the
`orderId` of the notification: the main order at `Events/{e}/Orders/{orderId}`
and, per POS, its distributed copy of that order when it exists. -/
structure RefundState where
  mainOrder : OrderColl
  posOrders : List (String × Option OrderColl)
deriving DecidableEq, Repr

/-- The notification fields the refund trigger inspects. -/
structure NotifChangeData where
  status : Option String := none
  orderId : Option String := none
  itemIds : Option (List String) := none
deriving DecidableEq, Repr

/-- The `onNotificationRefundUpdate` trigger body: skip unless `orderId`
is truthy and `itemIds` present, skip unless the status transitions into
`refund`; otherwise cancel the items and recompute totals on the main
order and on every existing POS copy. -/
def onNotificationRefundUpdate (before after : NotifChangeData) (st : RefundState) :
    RefundState :=
  match after.orderId, after.itemIds with
  | some o, some ids =>
    if o = "" then st
    else if before.status = some "refund" ∨ after.status ≠ some "refund" then st
    else
      { mainOrder := applyRefundToOrder ids st.mainOrder,
        posOrders := st.posOrders.map (fun q => (q.1, q.2.map (applyRefundToOrder ids))) }
  | _, _ => st

/-- The cancellation as the claim words it, for `itemIds = [x, y]`:
every item document whose `itemId` is `x` or `y` is merged with
`{status: "canceled", quantity: 0}`, the rest untouched. -/
def specCancelTwo (x y : String) (items : List (String × ItemDocF)) :
    List (String × ItemDocF) :=
  items.map (fun e =>
    if e.2.itemId = some x ∨ e.2.itemId = some y then
      (e.1, { e.2 with status := some "canceled", quantity := some 0 })
    else e)

/-- The quantity of an item document as read back (`quantity ?? count ?? 0`). -/
def docQty (d : ItemDocF) : Int :=
  (d.quantity.orElse fun _ => d.count).getD 0

/-- The recomputed total as the claim words it: the sum of
`price * quantity` over the remaining non-canceled items. -/
def specTotalPrice (items : List (String × ItemDocF)) : Int :=
  ((items.filter (fun e => strOr e.2.status "active" ≠ "canceled")).map
    (fun e => e.2.price.getD 0 * docQty e.2)).sum

/-- The per-item contribution of the `recalculateOrderTotals` loop. -/
def recalcTerm (e : String × ItemDocF) : Int :=
  if strOr e.2.status "active" = "canceled" then 0
  else if 0 < docQty e.2 then e.2.price.getD 0 * docQty e.2 else 0

/-! ### Notification service (shared/notifications.ts) -/

/-- The `NotificationPayload` interface. -/
structure NotificationPayload where
  title : String := ""
  message : String := ""
  pointOfService : Option String := none
  price : Option Int := none
  itemIds : Option (List String) := none
  orderId : Option String := none
  paymentMethod : Option String := none
  severity : Option String := none
  action : Option String := none
  status : Option String := none
deriving DecidableEq, Repr

/-- A stored notification document (doc ids modelled as naturals drawn
from a counter, timestamps as naturals). -/
structure NotificationDoc where
  docId : Nat
  title : String
  message : String
  pointOfService : Option String
  price : Option Int
  itemIds : List String
  orderId : Option String
  paymentMethod : Option String
  severity : String
  action : Option String
  status : String
  createdAt : Option Nat
  updatedAt : Option Nat
deriving DecidableEq, Repr

/-- The `Notifications` collection of the event in document order, plus the id
source. -/
structure NotificationStore where
  docs : List NotificationDoc
  nextId : Nat
deriving DecidableEq, Repr

/-- The dedup query `orderId == o AND action == a AND status in
[created, in_progress]`. -/
def notifMatches (orderId : String) (action : Option String) (d : NotificationDoc) : Bool :=
  d.orderId == some orderId && d.action == action
    && (d.status == "created" || d.status == "in_progress")

/-- Overwrite the payload-derived fields of a document with `baseData`
(`title`, `message`, `pointOfService || null`, `price ?? null`,
`itemIds` array or `[]`, `orderId || null`, `paymentMethod || null`,
`severity || info`, `action || null`, `status || created`). -/
def applyBaseData (payload : NotificationPayload) (d : NotificationDoc) : NotificationDoc :=
  { d with
      title := payload.title,
      message := payload.message,
      pointOfService := orNullStr payload.pointOfService,
      price := payload.price,
      itemIds := payload.itemIds.getD [],
      orderId := orNullStr payload.orderId,
      paymentMethod := orNullStr payload.paymentMethod,
      severity := strOr payload.severity "info",
      action := orNullStr payload.action,
      status := strOr payload.status "created" }

/-- A freshly appended notification document: `baseData` plus
`createdAt = updatedAt = server-timestamp`. -/
def newNotificationDoc (payload : NotificationPayload) (now : Nat) (docId : Nat) :
    NotificationDoc :=
  applyBaseData payload
    { docId := docId, title := "", message := "", pointOfService := none, price := none,
      itemIds := [], orderId := none, paymentMethod := none, severity := "",
      action := none, status := "", createdAt := some now, updatedAt := some now }

/-- Replace the first element satisfying `p` by its image under `f`
(the `existingRef.update(...)` on the single queried document). -/
def updateFirst (p : α → Bool) (f : α → α) : List α → List α
  | [] => []
  | x :: xs => if p x then f x :: xs else x :: updateFirst p f xs

/-- The in-place update of an existing notification: the new `baseData`
plus a refreshed `updatedAt` (the `createdAt` is untouched). -/
def notifUpdater (payload : NotificationPayload) (now : Nat) :
    NotificationDoc → NotificationDoc :=
  fun d0 => { applyBaseData payload d0 with updatedAt := some now }

/-- Function `createNotification`: validate, then — when `orderId` is truthy —
look for an existing notification with the same `(orderId, action)` and a
non-terminal status; update it in place (with `updatedAt` refreshed) and
return its id, or else append a new document and return the new id. -/
def createNotification (eventId : String) (payload : NotificationPayload) (now : Nat)
    (st : NotificationStore) : Except String (NotificationStore × Nat) :=
  if eventId = "" then .error "Event ID is required to create a notification"
  else if payload.title = "" ∨ payload.message = "" then
    .error "Notification must contain at least title and message"
  else
    let bAction := orNullStr payload.action
    let appendNew : NotificationStore × Nat :=
      ({ docs := st.docs ++ [newNotificationDoc payload now st.nextId],
         nextId := st.nextId + 1 }, st.nextId)
    match payload.orderId with
    | some o =>
      if o = "" then .ok appendNew
      else
        match st.docs.find? (notifMatches o bAction) with
        | some d =>
          let docs2 := updateFirst (notifMatches o bAction) (notifUpdater payload now) st.docs
          .ok ({ st with docs := docs2 }, d.docId)
        | none => .ok appendNew
    | none => .ok appendNew

/-- A sequence of `CreateNotification` emissions; a call that throws at
validation leaves the store unchanged. -/
def processNotificationCalls (eventId : String) (calls : List (NotificationPayload × Nat))
    (st : NotificationStore) : NotificationStore :=
  calls.foldl (fun s c =>
    match createNotification eventId c.1 c.2 s with
    | .ok r => r.1
    | .error _ => s) st

/-- The dedup invariant: for every pair `(orderId, action)` at most one
notification document with status in `{created, in_progress}`. -/
def dedupInvariant (st : NotificationStore) : Prop :=
  ∀ o a, st.docs.countP (notifMatches o a) ≤ 1

/-- C8 scenario: the notification transition and a store with a main
order `{x: 2 at 12, y: 1 at 4, z: 2 at 3}` and one POS copy holding `x`. -/
def c8Before : NotifChangeData :=
  { status := some "created", orderId := some "o1", itemIds := some ["x", "y"] }

def c8After : NotifChangeData :=
  { status := some "refund", orderId := some "o1", itemIds := some ["x", "y"] }

def c8ItemX : ItemDocF :=
  { itemId := some "x", price := some 12, quantity := some 2, status := some "active" }

def c8ItemY : ItemDocF := { itemId := some "y", price := some 4, quantity := some 1 }

def c8ItemZ : ItemDocF := { itemId := some "z", price := some 3, quantity := some 2 }

def c8MainItems : List (String × ItemDocF) :=
  [("x", c8ItemX), ("y", c8ItemY), ("z", c8ItemZ)]

def c8PosColl : OrderColl := { items := [("x", c8ItemX)], totalPrice := some 24 }

def c8State : RefundState :=
  { mainOrder := { items := c8MainItems, totalPrice := some 34 },
    posOrders := [("A", some c8PosColl), ("B", none)] }

/-- C9 repeated-emission scenario: one existing non-terminal refund
notification for order `o1`. -/
def c9Doc0 : NotificationDoc :=
  { docId := 0, title := "Artikel ist ausverkauft",
    message := "Unten stehenden Betrag erstatten", pointOfService := some "Table 1",
    price := some 24, itemIds := ["x"], orderId := some "o1", paymentMethod := none,
    severity := "error", action := some "refund", status := "created",
    createdAt := some 1, updatedAt := some 1 }

def c9Store : NotificationStore := { docs := [c9Doc0], nextId := 1 }

def c9Payload : NotificationPayload :=
  { title := "Artikel ist ausverkauft", message := "Unten stehenden Betrag erstatten",
    price := some 30, itemIds := some ["x", "y"], orderId := some "o1",
    severity := some "error", action := some "refund", status := some "created" }

end OrderCat

namespace OrderCat

/-! ### Shared lemmas -/

/-- When `distributeOrderWithoutPurchase` reports failure it has
materialized no distributed orders. -/
theorem distributeOrderWithoutPurchase_fail_writes (purchaseId eventId : String)
    (items : List Item) (servingPoint : Option ServingPoint) (mode : DistributionMode)
    (stores : List PointOfSale) (openCount : String → Nat) (note : Option String)
    (h : (distributeOrderWithoutPurchase purchaseId eventId items servingPoint mode
          stores openCount note).1.success = false) :
    (distributeOrderWithoutPurchase purchaseId eventId items servingPoint mode
      stores openCount note).2 = [] := by
  unfold distributeOrderWithoutPurchase at h ⊢
  cases servingPoint with
  | none => rfl
  | some sp =>
    by_cases h1 : eventId = "" ∨ items.isEmpty = true ∨ purchaseId = ""
    · simp only [h1, if_pos]
    · by_cases h2 : stores.isEmpty = true
      · simp only [h1, h2, if_neg, if_pos, not_false_iff]
      · simp only [h1, h2, if_neg, not_false_iff] at h ⊢
        cases hd : distributeItems items stores mode sp purchaseId openCount note with
        | ok v => rw [hd] at h; simp at h
        | error msg => simp

/-! ### Claim C1 -/

/-- The two POS of the C1 scenario both carry items `x` and `y`. -/
def c1AvailX : Item := { id := "x" }

def c1AvailY : Item := { id := "y" }

def c1PosA : PointOfSale :=
  { id := "A", name := "Store A", location := "north",
    availableItems := [c1AvailX, c1AvailY] }

def c1PosB : PointOfSale :=
  { id := "B", name := "Store B", location := "south",
    availableItems := [c1AvailX, c1AvailY] }

/-- Open-order counts at call start: 2 at `A`, 1 at `B`. -/
def c1OpenCount : String → Nat := fun s => if s = "A" then 2 else 1

/-- Canonical line item for `x` (count 1, as the normalizer produces). -/
def c1ItemX : Item := { id := "x", name := some "Pizza", price := some 12, count := some 1 }

def c1ItemY : Item := { id := "y", name := some "Cola", price := some 4, count := some 1 }

def c1ServingPoint : ServingPoint := { id := "t1", name := "Table 1", location := "inside" }

/-- C1: in balanced mode, with POS `A` and `B` both carrying `x` and `y`,
open counts `A = 2` and `B = 1` at call start, distributing the purchase
`[x, y, x]` routes every item to `B`: the only distributed order written
is under `B`, containing an item document for `x` with `count = 2` and one
for `y` with `count = 1`, and no documents are written under `A` (the
open-order counts are read from the call-start state for each item and
the bucketed orders are only committed after all items are assigned, so
the second `x` still selects `B`). -/
theorem C1_balanced_scenario :
    ∃ infos writes,
      distributeItems [c1ItemX, c1ItemY, c1ItemX] [c1PosA, c1PosB]
          DistributionMode.balanced c1ServingPoint "p1" c1OpenCount none
        = .ok (infos, writes) ∧
      writes.map (fun w => (w.posId, w.items.map (fun e => (e.1, e.2.id, e.2.count))))
        = [("B", [("x__", "x", 2), ("y__", "y", 1)])] ∧
      writes.map (fun w => w.order.orderStatus) = ["open"] ∧
      infos.map (fun i => (i.pointOfSaleId, i.orderId, i.itemsCount)) = [("B", "p1", 3)] := by
  exact ⟨_, _, rfl, rfl, rfl, rfl⟩

/-! ### Claim C7 -/

/-- C7: normalizing the purchase-item document `{itemId: x, quantity: 3,
entries: [{quantity: 1, selectedExtras: ["cheese"]}]}` yields exactly
three canonical line items for `x`, each with `count = 1`: one carrying
`selectedExtras = ["cheese"]` and two carrying `selectedExtras = []`
(whatever the catalog lookup returned for `x`). -/
theorem C7_entries_normalization (details : Option Item) :
    (normalizePurchaseItemDoc c7Doc details).length = 3 ∧
    (normalizePurchaseItemDoc c7Doc details).map (fun i => i.count)
      = [some 1, some 1, some 1] ∧
    (normalizePurchaseItemDoc c7Doc details).map (fun i => i.selectedExtras)
      = [["cheese"], [], []] ∧
    (normalizePurchaseItemDoc c7Doc details).map (fun i => i.id) = ["x", "x", "x"] := by
  cases details <;> exact ⟨rfl, rfl, rfl, rfl⟩

/-! ### Claim C2 -/

/-- C2 counterexample: an invocation in which every guard passes and the
scheduler reports an error (no POS for the event).  The orchestrator only
logs the failure: it performs no `{distributionError, distributionFailed}`
write and does not rethrow, because `distributeOrderWithoutPurchase`
returns its errors instead of throwing, so the `catch` branch is never
reached. -/
theorem C2_counterexample :
    (distributeOrderWithoutPurchase "p1" "e1" (loadPurchaseItems c2Docs) (some c2Sp)
      DistributionMode.balanced [] (fun _ => 0) c2After.note).1.success = false ∧
    onPurchaseWrite (some ({} : PurchaseData)) (some c2After) c2Lookup c2Docs
        DistributionMode.balanced [] (fun _ => 0) "p1" "e1"
      = (OrchestratorAction.logFailure (some "No Points of Sale found for this event"), []) ∧
    OrchestratorAction.logFailure (some "No Points of Sale found for this event")
      ≠ OrchestratorAction.writeFailureAndRethrow "No Points of Sale found for this event" := by
  exact ⟨rfl, rfl, by decide⟩

/-- C2 amended: when the guard predicates of the purchase-write
orchestrator pass and the scheduler returns an error response, the
orchestrator only logs the failure and performs no write to the purchase
document: it neither marks it `distributed = true` nor writes
`{distributionError, distributionFailed}`, and it does not rethrow (the
error-write-and-rethrow branch runs only for thrown exceptions, which the
scheduler never produces because it returns its errors). -/
theorem C2_amended (before : Option PurchaseData) (a : PurchaseData)
    (spLookup : String → Option ServingPoint)
    (docs : List (PurchaseItemDoc × Option Item)) (mode : DistributionMode)
    (stores : List PointOfSale) (openCount : String → Nat) (pid eid spId : String)
    (sp : ServingPoint)
    (hpaid : a.isPaid = true)
    (hbefore : (before.map (fun b => b.isPaid)).getD false = false)
    (hdist : a.distributed = false)
    (hspid : a.servingPointId = some spId) (hne : spId ≠ "")
    (hlookup : spLookup spId = some sp)
    (hitems : (loadPurchaseItems docs).isEmpty = false)
    (hfail : (distributeOrderWithoutPurchase pid eid (loadPurchaseItems docs) (some sp)
        mode stores openCount a.note).1.success = false) :
    onPurchaseWrite before (some a) spLookup docs mode stores openCount pid eid
      = (OrchestratorAction.logFailure
          (distributeOrderWithoutPurchase pid eid (loadPurchaseItems docs) (some sp)
            mode stores openCount a.note).1.error, []) := by
  have hw := distributeOrderWithoutPurchase_fail_writes pid eid (loadPurchaseItems docs)
    (some sp) mode stores openCount a.note hfail
  simp [onPurchaseWrite, hpaid, hbefore, hdist, hspid, hne, hlookup, hitems, hfail, hw]

/-- C2 amended, witness: the concrete scenario of the counterexample
instantiates the amended theorem. -/
theorem C2_amended_witness :
    onPurchaseWrite (some ({} : PurchaseData)) (some c2After) c2Lookup c2Docs
        DistributionMode.balanced [] (fun _ => 0) "p1" "e1"
      = (OrchestratorAction.logFailure
          (distributeOrderWithoutPurchase "p1" "e1" (loadPurchaseItems c2Docs) (some c2Sp)
            DistributionMode.balanced [] (fun _ => 0) c2After.note).1.error, []) :=
  C2_amended (some ({} : PurchaseData)) c2After c2Lookup c2Docs DistributionMode.balanced
    [] (fun _ => 0) "p1" "e1" "sp1" c2Sp rfl rfl rfl rfl (by decide) rfl (by decide) rfl

/-! ### Claim C3 -/

/-- C3 counterexample: two canonical line items with the same id, the same
`selectedExtras` up to ordering (and identical `excludedIngredients`), and
quantity 1 each, produce two item documents, not one: the grouping key
joins the arrays in the order they carry them, without sorting. -/
theorem C3_counterexample :
    c3Item1.id = c3Item2.id ∧
    List.Perm c3Item1.selectedExtras c3Item2.selectedExtras ∧
    List.Perm c3Item1.excludedIngredients c3Item2.excludedIngredients ∧
    getItemQuantity c3Item1 = 1 ∧ getItemQuantity c3Item2 = 1 ∧
    (createDistributedItems [c3Item1, c3Item2]).length = 2 := by
  refine ⟨rfl, ?_, List.Perm.refl _, rfl, rfl, rfl⟩
  exact List.Perm.swap "b" "a" []

/-- C3 amended: within one POS bucket, two canonical line items with
positive quantity, the same `itemId`, the same `selectedExtras` sequence
(in the same order) and the same `excludedIngredients` sequence produce
exactly one item document, whose `count` is the sum of their quantities. -/
theorem C3_grouping_amended (i1 i2 : Item)
    (hid : i1.id = i2.id) (hex : i1.selectedExtras = i2.selectedExtras)
    (hexc : i1.excludedIngredients = i2.excludedIngredients)
    (h1 : 0 < getItemQuantity i1) (h2 : 0 < getItemQuantity i2) :
    (createDistributedItems [i1, i2]).length = 1 ∧
    (createDistributedItems [i1, i2]).map (fun e => e.2.count)
      = [getItemQuantity i1 + getItemQuantity i2] := by
  have hq1 : ¬ getItemQuantity i1 = 0 := by omega
  have hq2 : ¬ getItemQuantity i2 = 0 := by omega
  have hkey : itemKey i2 = itemKey i1 := by
    unfold itemKey; rw [hid, hex, hexc]
  constructor <;>
    simp [createDistributedItems, groupDistributedItems, bumpGroup, toDistItemDoc,
      hq1, hq2, hkey]

/-- C3 amended, witness: two identical canonical items for `x` with extras
`["a", "b"]` each of quantity 1 yield one document with count 2. -/
theorem C3_grouping_amended_witness :
    (createDistributedItems [c3Item1, c3Item1]).length = 1 ∧
    (createDistributedItems [c3Item1, c3Item1]).map (fun e => e.2.count)
      = [getItemQuantity c3Item1 + getItemQuantity c3Item1] :=
  C3_grouping_amended c3Item1 c3Item1 rfl rfl rfl (by decide) (by decide)

/-! ### Claim C6 -/

/-- C6 counterexample: a grouped-mode call with otherwise valid inputs does
fail, but its error message is `"Grouped distribution mode not yet
implemented"` (capital G), not the claimed string. -/
theorem C6_counterexample :
    (distributeOrderWithoutPurchase "p1" "e1" [c1ItemX] (some c1ServingPoint)
      DistributionMode.grouped [c1PosA] (fun _ => 0) none).1.success = false ∧
    (distributeOrderWithoutPurchase "p1" "e1" [c1ItemX] (some c1ServingPoint)
        DistributionMode.grouped [c1PosA] (fun _ => 0) none).1.error
      = some "Grouped distribution mode not yet implemented" ∧
    (distributeOrderWithoutPurchase "p1" "e1" [c1ItemX] (some c1ServingPoint)
        DistributionMode.grouped [c1PosA] (fun _ => 0) none).1.error
      ≠ some "grouped distribution mode not yet implemented" := by
  exact ⟨rfl, rfl, by decide⟩

/-- C6 amended: every scheduler call with grouped mode and otherwise valid
inputs fails with `success = false`, error `"Grouped distribution mode not
yet implemented"`, and materializes no distributed orders. -/
theorem C6_grouped_amended (purchaseId eventId : String) (items : List Item)
    (sp : ServingPoint) (stores : List PointOfSale) (openCount : String → Nat)
    (note : Option String)
    (hpid : purchaseId ≠ "") (heid : eventId ≠ "") (hitems : items ≠ [])
    (hstores : stores ≠ []) :
    (distributeOrderWithoutPurchase purchaseId eventId items (some sp)
      DistributionMode.grouped stores openCount note).1.success = false ∧
    (distributeOrderWithoutPurchase purchaseId eventId items (some sp)
        DistributionMode.grouped stores openCount note).1.error
      = some "Grouped distribution mode not yet implemented" ∧
    (distributeOrderWithoutPurchase purchaseId eventId items (some sp)
      DistributionMode.grouped stores openCount note).2 = [] := by
  unfold distributeOrderWithoutPurchase
  have h1 : ¬ (eventId = "" ∨ items.isEmpty = true ∨ purchaseId = "") := by
    simp [heid, hpid, List.isEmpty_iff, hitems]
  have h2 : ¬ stores.isEmpty = true := by
    simp [List.isEmpty_iff, hstores]
  simp only [h1, h2, if_neg, not_false_iff, distributeItems]
  exact ⟨by simp, by simp, by simp⟩

/-- C6 amended, witness. -/
theorem C6_grouped_amended_witness :
    (distributeOrderWithoutPurchase "p1" "e1" [c1ItemX] (some c1ServingPoint)
      DistributionMode.grouped [c1PosA] (fun _ => 0) none).1.success = false ∧
    (distributeOrderWithoutPurchase "p1" "e1" [c1ItemX] (some c1ServingPoint)
        DistributionMode.grouped [c1PosA] (fun _ => 0) none).1.error
      = some "Grouped distribution mode not yet implemented" ∧
    (distributeOrderWithoutPurchase "p1" "e1" [c1ItemX] (some c1ServingPoint)
      DistributionMode.grouped [c1PosA] (fun _ => 0) none).2 = [] :=
  C6_grouped_amended "p1" "e1" [c1ItemX] c1ServingPoint [c1PosA] (fun _ => 0) none
    (by decide) (by decide) (by decide) (by decide)

/-! ### Claim C10 -/

/-- C10 counterexample: against an event with no POS, the RPC does fail,
but the error string is `"No Points of Sale found for this event"`, not
the claimed `"No Points of Sale found"`. -/
theorem C10_counterexample :
    (distributeOrder "e1" [c1ItemX] (some c1ServingPoint) none DistributionMode.balanced
      none "u1" [] (fun _ => 0) { purchases := [] }).1.success = false ∧
    (distributeOrder "e1" [c1ItemX] (some c1ServingPoint) none DistributionMode.balanced
        none "u1" [] (fun _ => 0) { purchases := [] }).1.error
      = some "No Points of Sale found for this event" ∧
    (distributeOrder "e1" [c1ItemX] (some c1ServingPoint) none DistributionMode.balanced
        none "u1" [] (fun _ => 0) { purchases := [] }).1.error
      ≠ some "No Points of Sale found" := by
  exact ⟨rfl, rfl, by decide⟩

/-- C10 amended: calling the RPC entrypoint `distributeOrder` with
non-empty items and a serving point against an event with no POS returns
`success = false` with the error `"No Points of Sale found for this
event"`, yet the main purchase document under the freshly generated id —
with its items sub-collection — remains in the store and no distributed
orders exist: the failed call is not atomic and leaves a new,
never-distributed purchase behind. -/
theorem C10_purchase_persists (eventId : String) (items : List Item)
    (sp : ServingPoint) (userId note : Option String) (mode : DistributionMode)
    (uuid : String) (openCount : String → Nat) (st : MainStore)
    (heid : eventId ≠ "") (hitems : items ≠ []) (huuid : uuid ≠ "")
    (hfresh : st.purchases.find? (fun e => e.1 = uuid) = none) :
    (distributeOrder eventId items (some sp) userId mode note uuid [] openCount st).1.success
      = false ∧
    (distributeOrder eventId items (some sp) userId mode note uuid [] openCount st).1.error
      = some "No Points of Sale found for this event" ∧
    (distributeOrder eventId items (some sp) userId mode note uuid [] openCount
        st).2.1.purchases.find? (fun e => e.1 = uuid)
      = some (uuid, createPurchase items userId (some sp) note) ∧
    (distributeOrder eventId items (some sp) userId mode note uuid [] openCount st).2.2 = [] := by
  unfold distributeOrder distributeOrderWithoutPurchase
  have h0 : ¬ (eventId = "" ∨ items.isEmpty = true ∨ (some sp).isNone = true) := by
    simp [heid, List.isEmpty_iff, hitems]
  have h1 : ¬ (eventId = "" ∨ items.isEmpty = true ∨ uuid = "") := by
    simp [heid, huuid, List.isEmpty_iff, hitems]
  simp only [h0, h1, if_neg, not_false_iff, List.isEmpty_nil, if_pos]
  refine ⟨by simp, by simp, ?_, by simp⟩
  rw [List.find?_append, hfresh]
  simp

/-- C10 amended, witness: the concrete no-POS call of the counterexample,
starting from an empty purchases collection. -/
theorem C10_purchase_persists_witness :
    (distributeOrder "e1" [c1ItemX] (some c1ServingPoint) none DistributionMode.balanced
      none "u1" [] (fun _ => 0) { purchases := [] }).1.success = false ∧
    (distributeOrder "e1" [c1ItemX] (some c1ServingPoint) none DistributionMode.balanced
        none "u1" [] (fun _ => 0) { purchases := [] }).1.error
      = some "No Points of Sale found for this event" ∧
    (distributeOrder "e1" [c1ItemX] (some c1ServingPoint) none DistributionMode.balanced
        none "u1" [] (fun _ => 0)
        ({ purchases := [] } : MainStore)).2.1.purchases.find? (fun e => e.1 = "u1")
      = some ("u1", createPurchase [c1ItemX] none (some c1ServingPoint) none) ∧
    (distributeOrder "e1" [c1ItemX] (some c1ServingPoint) none DistributionMode.balanced
      none "u1" [] (fun _ => 0) { purchases := [] }).2.2 = [] :=
  C10_purchase_persists "e1" [c1ItemX] c1ServingPoint none none DistributionMode.balanced
    "u1" (fun _ => 0) { purchases := [] } (by decide) (by decide) (by decide) rfl

/-! ### Claim C4 -/

/-- The entry-wise reading of the `syncGlobalItemAvailability` scan. -/
theorem syncEntry_iff (e : String × Option PosItemDoc) :
    ((match e.2 with
      | none => false
      | some d => !(d.isAvailable == some false)) = true)
      ↔ ∃ d, e.2 = some d ∧ d.isAvailable ≠ some false := by
  cases h : e.2 with
  | none => simp
  | some d => simp [h]

/-- The computed global flag says exactly that some POS carries the item
with `isAvailable ≠ false`. -/
theorem syncGlobalItemAvailability_iff (docs : List (String × Option PosItemDoc)) :
    syncGlobalItemAvailability docs = true ↔ carriesAvailableSomewhere docs := by
  unfold syncGlobalItemAvailability carriesAvailableSomewhere
  rw [List.any_eq_true]
  constructor
  · rintro ⟨e, he, hp⟩
    exact ⟨e, he, (syncEntry_iff e).mp hp⟩
  · rintro ⟨e, he, hp⟩
    exact ⟨e, he, (syncEntry_iff e).mpr hp⟩

/-- C4: after any sequence of per-POS `isAvailable` flag changes for item
`i` processed to completion by the availability reconciler — the last of
which is a genuine flip on a POS that carries the item — the canonical
event-level flag is `true` if and only if at least one POS of the event
carries item `i` with POS-local `isAvailable ≠ false`. -/
theorem C4_availability_reconciliation (openCount : String → Nat) (st : AvailState)
    (changes : List (String × PosItemDoc)) (p : String) (before after : PosItemDoc)
    (hfind : (processAvailChanges openCount st changes).posDocs.find? (fun e => e.1 = p)
        = some (p, some before))
    (hflip : before.isAvailable.getD true ≠ after.isAvailable.getD true) :
    ((processAvailChanges openCount st (changes ++ [(p, after)])).globalFlag = some true
      ↔ carriesAvailableSomewhere
          (processAvailChanges openCount st (changes ++ [(p, after)])).posDocs) := by
  have hstep : processAvailChanges openCount st (changes ++ [(p, after)])
      = availStep openCount (processAvailChanges openCount st changes) p after := by
    unfold processAvailChanges
    rw [List.foldl_append]
    rfl
  rw [hstep]
  unfold availStep
  rw [hfind]
  simp only [hflip, if_false, if_neg]
  split
  · rw [Option.some_inj]
    exact syncGlobalItemAvailability_iff _
  · split <;>
    · rw [Option.some_inj]
      exact syncGlobalItemAvailability_iff _

/-- C4 witness: POS `A` (available) and `B` (unavailable); flipping `A`
to unavailable leaves the final canonical flag equal to the
exists-characterization (both sides false). -/
theorem C4_availability_reconciliation_witness :
    ((processAvailChanges (fun _ => 0)
        { posDocs := [("A", some { isAvailable := some true }),
                      ("B", some { isAvailable := some false })],
          globalFlag := some true }
        ([] ++ [("A", { isAvailable := some false })])).globalFlag = some true
      ↔ carriesAvailableSomewhere
          (processAvailChanges (fun _ => 0)
            { posDocs := [("A", some { isAvailable := some true }),
                          ("B", some { isAvailable := some false })],
              globalFlag := some true }
            ([] ++ [("A", { isAvailable := some false })])).posDocs) :=
  C4_availability_reconciliation (fun _ => 0)
    { posDocs := [("A", some { isAvailable := some true }),
                  ("B", some { isAvailable := some false })],
      globalFlag := some true }
    [] "A" { isAvailable := some true } { isAvailable := some false } rfl (by decide)

/-! ### Claim C5 -/

/-- A sanitized payload with a positive new count reads back as exactly
that count. -/
theorem extractCount_sanitize (source : ItemDocF) (n : Nat) (h : 0 < n) :
    extractCountFromItem (some (sanitizeItemData source n)) = n := by
  have hn : ¬ ((n : Int) ≤ 0) := by omega
  show (if (n : Int) ≤ 0 then 0 else (n : Int).toNat) = n
  rw [if_neg hn]
  omega

/-- C5: for every item document migrated from POS `p` to POS `q` as part
of an open order, the per-item transaction deletes the source document
and writes the destination document in the same transaction; the new
destination count is the previous destination count plus the source
count, and the total count over source and destination for that document
key is unchanged. -/
theorem C5_migration_preserves_counts (source : ItemDocF) (dest : Option ItemDocF)
    (hpos : 0 < extractCountFromItem (some source)) :
    (migrateItemTxn source dest).1 = none ∧
    extractCountFromItem (some (migrateItemTxn source dest).2)
      = extractCountFromItem dest + extractCountFromItem (some source) ∧
    extractCountFromItem (migrateItemTxn source dest).1
        + extractCountFromItem (some (migrateItemTxn source dest).2)
      = extractCountFromItem (some source) + extractCountFromItem dest := by
  have hmain : extractCountFromItem (some (migrateItemTxn source dest).2)
      = extractCountFromItem dest + extractCountFromItem (some source) := by
    show extractCountFromItem (some (sanitizeItemData source
      (extractCountFromItem dest + extractCountFromItem (some source))))
      = extractCountFromItem dest + extractCountFromItem (some source)
    exact extractCount_sanitize source _ (by omega)
  have h0 : extractCountFromItem (migrateItemTxn source dest).1 = 0 := rfl
  refine ⟨rfl, hmain, ?_⟩
  rw [h0, hmain]
  omega

/-- C5 witness: migrating 2 units of `x` onto a destination already
holding 3 yields a destination count of 5 with the source deleted. -/
theorem C5_migration_witness :
    (migrateItemTxn { itemId := some "x", quantity := some 2, price := some 5 }
        (some { itemId := some "x", quantity := some 3 })).1 = none ∧
    extractCountFromItem (some (migrateItemTxn
        { itemId := some "x", quantity := some 2, price := some 5 }
        (some { itemId := some "x", quantity := some 3 })).2)
      = extractCountFromItem (some ({ itemId := some "x", quantity := some 3 } : ItemDocF))
        + extractCountFromItem
            (some ({ itemId := some "x", quantity := some 2, price := some 5 } : ItemDocF)) ∧
    extractCountFromItem (migrateItemTxn
        { itemId := some "x", quantity := some 2, price := some 5 }
        (some { itemId := some "x", quantity := some 3 })).1
        + extractCountFromItem (some (migrateItemTxn
            { itemId := some "x", quantity := some 2, price := some 5 }
            (some { itemId := some "x", quantity := some 3 })).2)
      = extractCountFromItem
          (some ({ itemId := some "x", quantity := some 2, price := some 5 } : ItemDocF))
        + extractCountFromItem (some ({ itemId := some "x", quantity := some 3 } : ItemDocF)) :=
  C5_migration_preserves_counts { itemId := some "x", quantity := some 2, price := some 5 }
    (some { itemId := some "x", quantity := some 3 }) (by decide)

/-! ### Claim C8 -/

/-- The `in`-query match against a two-element chunk, read as a
disjunction. -/
theorem itemIdMatches_pair (d : ItemDocF) (x y : String) :
    itemIdMatches d [x, y] = true ↔ (d.itemId = some x ∨ d.itemId = some y) := by
  unfold itemIdMatches
  cases h : d.itemId with
  | none => simp
  | some v => simp

/-- For a two-id notification the chunked cancellation is one pass that
cancels exactly the documents whose `itemId` is one of the two ids. -/
theorem chunksOf10_pair (x y : String) : chunksOf10 [x, y] = [[x, y]] := by
  unfold chunksOf10
  have h : ([x, y].length + 9) / 10 = 1 := by simp
  rw [h]
  simp [List.range_succ]

theorem cancelItems_pair (x y : String) (items : List (String × ItemDocF)) :
    cancelItemsInOrderCollection [x, y] items = specCancelTwo x y items := by
  unfold cancelItemsInOrderCollection
  rw [chunksOf10_pair, List.foldl_cons, List.foldl_nil]
  unfold cancelChunk specCancelTwo
  apply List.map_congr_left
  intro e _
  by_cases hm : e.2.itemId = some x ∨ e.2.itemId = some y
  · rw [if_pos ((itemIdMatches_pair e.2 x y).mpr hm), if_pos hm]
  · rw [if_neg (fun hc => hm ((itemIdMatches_pair e.2 x y).mp hc)), if_neg hm]

/-- The `recalculateOrderTotals` loop accumulates the per-item terms. -/
theorem recalc_foldl_eq (items : List (String × ItemDocF)) :
    ∀ a : Int,
      items.foldl (fun total e =>
        if strOr e.2.status "active" = "canceled" then total
        else
          let price := e.2.price.getD 0
          let quantity := (e.2.quantity.orElse fun _ => e.2.count).getD 0
          if 0 < quantity then total + price * quantity else total) a
      = a + (items.map recalcTerm).sum := by
  induction items with
  | nil => intro a; simp
  | cons e its ih =>
    intro a
    rw [List.foldl_cons, ih]
    have hb : (if strOr e.2.status "active" = "canceled" then a
        else
          let price := e.2.price.getD 0
          let quantity := (e.2.quantity.orElse fun _ => e.2.count).getD 0
          if 0 < quantity then a + price * quantity else a) = a + recalcTerm e := by
      unfold recalcTerm docQty
      dsimp only
      split
      · simp
      · split
        · rfl
        · simp
    rw [hb, List.map_cons, List.sum_cons]
    ring

/-- Under non-negative stored quantities the loop computes the claimed
sum of `price * quantity` over the non-canceled items. -/
theorem sum_recalcTerm_eq_spec : ∀ (items : List (String × ItemDocF)),
    (∀ e ∈ items, 0 ≤ docQty e.2) →
    (items.map recalcTerm).sum = specTotalPrice items := by
  intro items
  induction items with
  | nil => intro _; simp [specTotalPrice]
  | cons e its ih =>
    intro h
    have he := h e (by simp)
    have hits : ∀ x ∈ its, 0 ≤ docQty x.2 := fun x hx => h x (by simp [hx])
    rw [List.map_cons, List.sum_cons, ih hits]
    by_cases hc : strOr e.2.status "active" = "canceled"
    · have ht : recalcTerm e = 0 := by unfold recalcTerm; rw [if_pos hc]
      have hspec : specTotalPrice (e :: its) = specTotalPrice its := by
        unfold specTotalPrice
        rw [List.filter_cons]
        simp [hc]
      rw [ht, hspec, zero_add]
    · have ht : recalcTerm e = e.2.price.getD 0 * docQty e.2 := by
        unfold recalcTerm
        rw [if_neg hc]
        by_cases hq : 0 < docQty e.2
        · rw [if_pos hq]
        · have h0 : docQty e.2 = 0 := by omega
          rw [if_neg hq, h0, mul_zero]
      have hspec : specTotalPrice (e :: its)
          = e.2.price.getD 0 * docQty e.2 + specTotalPrice its := by
        unfold specTotalPrice
        rw [List.filter_cons]
        simp [hc]
      rw [ht, hspec]

theorem recalc_eq_spec (items : List (String × ItemDocF))
    (h : ∀ e ∈ items, 0 ≤ docQty e.2) :
    recalculateOrderTotals items = specTotalPrice items := by
  unfold recalculateOrderTotals
  rw [recalc_foldl_eq items 0, zero_add]
  exact sum_recalcTerm_eq_spec items h

/-- Cancellation never introduces a negative quantity. -/
theorem specCancelTwo_nonneg (x y : String) (items : List (String × ItemDocF))
    (h : ∀ e ∈ items, 0 ≤ docQty e.2) :
    ∀ e ∈ specCancelTwo x y items, 0 ≤ docQty e.2 := by
  intro e he
  unfold specCancelTwo at he
  rw [List.mem_map] at he
  obtain ⟨a, ha, rfl⟩ := he
  by_cases hm : a.2.itemId = some x ∨ a.2.itemId = some y
  · rw [if_pos hm]
    show (0 : Int) ≤ docQty { a.2 with status := some "canceled", quantity := some 0 }
    simp [docQty]
  · rw [if_neg hm]
    exact h a ha

/-- C8: when a notification with `orderId = o1` and `itemIds = [x, y]`
transitions to status `refund`, every item document whose `itemId` is `x`
or `y` in the main order and in every existing POS-scoped copy of `o1` is
merged with `{status: "canceled", quantity: 0}`, the other documents are
untouched, and the `totalPrice` of each affected order is recomputed as the
sum of `price * quantity` over its remaining non-canceled items (stored
quantities are non-negative, per invariant I6). -/
theorem C8_refund_propagation (before after : NotifChangeData) (st : RefundState)
    (x y o1 : String)
    (horder : after.orderId = some o1) (ho1 : o1 ≠ "")
    (hids : after.itemIds = some [x, y])
    (hb : before.status ≠ some "refund") (ha : after.status = some "refund")
    (hmainq : ∀ e ∈ st.mainOrder.items, 0 ≤ docQty e.2)
    (hposq : ∀ q ∈ st.posOrders, ∀ e ∈ ((q.2.map OrderColl.items).getD []), 0 ≤ docQty e.2) :
    (onNotificationRefundUpdate before after st).mainOrder.items
      = specCancelTwo x y st.mainOrder.items ∧
    (onNotificationRefundUpdate before after st).mainOrder.totalPrice
      = some (specTotalPrice (specCancelTwo x y st.mainOrder.items)) ∧
    (onNotificationRefundUpdate before after st).posOrders
      = st.posOrders.map (fun q => (q.1, q.2.map (fun oc =>
          ({ items := specCancelTwo x y oc.items,
             totalPrice := some (specTotalPrice (specCancelTwo x y oc.items)) }
            : OrderColl)))) := by
  have happly : ∀ (oc : OrderColl), (∀ e ∈ oc.items, 0 ≤ docQty e.2) →
      applyRefundToOrder [x, y] oc
        = { items := specCancelTwo x y oc.items,
            totalPrice := some (specTotalPrice (specCancelTwo x y oc.items)) } := by
    intro oc hq
    unfold applyRefundToOrder
    dsimp only
    rw [cancelItems_pair, recalc_eq_spec _ (specCancelTwo_nonneg x y oc.items hq)]
  have hcond : ¬ (before.status = some "refund" ∨ after.status ≠ some "refund") := by
    push_neg
    exact ⟨hb, ha⟩
  have hrun : onNotificationRefundUpdate before after st
      = { mainOrder := applyRefundToOrder [x, y] st.mainOrder,
          posOrders := st.posOrders.map
            (fun q => (q.1, q.2.map (applyRefundToOrder [x, y]))) } := by
    unfold onNotificationRefundUpdate
    rw [horder, hids]
    dsimp only
    rw [if_neg ho1, if_neg hcond]
  rw [hrun]
  refine ⟨?_, ?_, ?_⟩
  · show (applyRefundToOrder [x, y] st.mainOrder).items = _
    rw [happly st.mainOrder hmainq]
  · show (applyRefundToOrder [x, y] st.mainOrder).totalPrice = _
    rw [happly st.mainOrder hmainq]
  · show st.posOrders.map _ = st.posOrders.map _
    apply List.map_congr_left
    intro q hq
    cases hoc : q.2 with
    | none => rfl
    | some oc =>
      have hql : ∀ e ∈ oc.items, 0 ≤ docQty e.2 := by
        have := hposq q hq
        rw [hoc] at this
        simpa using this
      show (q.1, some (applyRefundToOrder [x, y] oc))
        = (q.1, some (OrderColl.mk (specCancelTwo x y oc.items)
            (some (specTotalPrice (specCancelTwo x y oc.items)))))
      rw [happly oc hql]

/-- C8 witness: a concrete main order `{x: 2 at 12, y: 1 at 4, z: 2 at 3}`
with one POS copy of the order holding `x`; the refund for `[x, y]`
cancels `x` and `y` everywhere and recomputes the totals. -/
theorem C8_refund_propagation_witness :
    (onNotificationRefundUpdate c8Before c8After c8State).mainOrder.items
      = specCancelTwo "x" "y" c8State.mainOrder.items ∧
    (onNotificationRefundUpdate c8Before c8After c8State).mainOrder.totalPrice
      = some (specTotalPrice (specCancelTwo "x" "y" c8State.mainOrder.items)) ∧
    (onNotificationRefundUpdate c8Before c8After c8State).posOrders
      = c8State.posOrders.map (fun q => (q.1, q.2.map (fun oc =>
          ({ items := specCancelTwo "x" "y" oc.items,
             totalPrice := some (specTotalPrice (specCancelTwo "x" "y" oc.items)) }
            : OrderColl)))) :=
  C8_refund_propagation c8Before c8After c8State "x" "y" "o1"
    rfl (by decide) rfl (by decide) rfl (by decide) (by decide)

/-! ### Claim C9 -/

/-- A matched notification document has the queried `orderId` and
`action`. -/
theorem notifMatches_keys {o : String} {a : Option String} {d : NotificationDoc}
    (h : notifMatches o a d = true) : d.orderId = some o ∧ d.action = a := by
  unfold notifMatches at h
  simp only [Bool.and_eq_true, beq_iff_eq] at h
  exact ⟨h.1.1, h.1.2⟩

/-- A matched notification document has a non-terminal status. -/
theorem notifMatches_status {o : String} {a : Option String} {d : NotificationDoc}
    (h : notifMatches o a d = true) :
    d.status = "created" ∨ d.status = "in_progress" := by
  unfold notifMatches at h
  simp only [Bool.and_eq_true, Bool.or_eq_true, beq_iff_eq] at h
  exact h.2

/-- Replacing the first `p`-match by `f` cannot increase the number of
`q`-matches, provided `f` never turns a `p`-match into a fresh
`q`-match. -/
theorem countP_updateFirst_le {α : Type} (p q : α → Bool) (f : α → α)
    (h : ∀ a, p a = true → q (f a) = true → q a = true) :
    ∀ l : List α, (updateFirst p f l).countP q ≤ l.countP q := by
  intro l
  induction l with
  | nil => exact Nat.le_refl _
  | cons x xs ih =>
    unfold updateFirst
    by_cases hp : p x = true
    · rw [if_pos hp, List.countP_cons, List.countP_cons]
      by_cases hq : q (f x) = true
      · rw [if_pos hq, if_pos (h x hp hq)]
      · rw [if_neg hq]
        by_cases hqx : q x = true
        · rw [if_pos hqx]; omega
        · rw [if_neg hqx]
    · rw [if_neg hp, List.countP_cons, List.countP_cons]
      exact Nat.add_le_add_right ih _

theorem length_updateFirst {α : Type} (p : α → Bool) (f : α → α) :
    ∀ l : List α, (updateFirst p f l).length = l.length := by
  intro l
  induction l with
  | nil => rfl
  | cons x xs ih =>
    unfold updateFirst
    by_cases hp : p x = true
    · rw [if_pos hp]; rfl
    · rw [if_neg hp]
      simp [ih]

/-- The image of the found document is in the updated list. -/
theorem updateFirst_mem_image {α : Type} (p : α → Bool) (f : α → α) :
    ∀ (l : List α) (d : α), l.find? p = some d → f d ∈ updateFirst p f l := by
  intro l
  induction l with
  | nil => intro d h; simp [List.find?] at h
  | cons x xs ih =>
    intro d h
    unfold updateFirst
    by_cases hp : p x = true
    · rw [List.find?_cons_of_pos _ hp] at h
      injection h with h
      rw [if_pos hp, h]
      exact List.mem_cons_self _ _
    · rw [List.find?_cons_of_neg _ hp] at h
      rw [if_neg hp]
      exact List.mem_cons_of_mem x (ih d h)

/-- When at most one element matches, `find?` returns precisely the
matching member. -/
theorem find?_of_countP_le_one {α : Type} (p : α → Bool) :
    ∀ (l : List α) (d : α), l.countP p ≤ 1 → d ∈ l → p d = true → l.find? p = some d := by
  intro l
  induction l with
  | nil => intro d _ hd; simp at hd
  | cons x xs ih =>
    intro d hc hd hp
    by_cases hx : p x = true
    · rw [List.find?_cons_of_pos _ hx]
      rcases List.mem_cons.mp hd with rfl | hmem
      · rfl
      · exfalso
        rw [List.countP_cons, if_pos hx] at hc
        have h0 : xs.countP p = 0 := by omega
        exact (List.countP_eq_zero.mp h0 d hmem) hp
    · rw [List.find?_cons_of_neg _ hx]
      rcases List.mem_cons.mp hd with rfl | hmem
      · exact absurd hp hx
      · refine ih d ?_ hmem hp
        rw [List.countP_cons, if_neg hx] at hc
        omega

/-- Appending a document that can only match pairs whose current count is
zero preserves the dedup invariant. -/
theorem dedup_append (st : NotificationStore) (payload : NotificationPayload) (now : Nat)
    (hinv : dedupInvariant st)
    (hguard : ∀ o a, notifMatches o a (newNotificationDoc payload now st.nextId) = true →
      st.docs.countP (notifMatches o a) = 0) :
    dedupInvariant { docs := st.docs ++ [newNotificationDoc payload now st.nextId],
                     nextId := st.nextId + 1 } := by
  intro o a
  show (st.docs ++ [newNotificationDoc payload now st.nextId]).countP (notifMatches o a) ≤ 1
  rw [List.countP_append]
  by_cases hm : notifMatches o a (newNotificationDoc payload now st.nextId) = true
  · rw [hguard o a hm]
    have hle : ([newNotificationDoc payload now st.nextId]).countP (notifMatches o a)
        ≤ [newNotificationDoc payload now st.nextId].length := List.countP_le_length _
    simpa using hle
  · have h0 : ([newNotificationDoc payload now st.nextId]).countP (notifMatches o a) = 0 := by
      rw [List.countP_cons, List.countP_nil, if_neg hm]
    rw [h0]
    simpa using hinv o a

/-- Updating the queried document in place preserves the dedup
invariant: the update keeps the `(orderId, action)` key of the document, so it
can only keep or leave the non-terminal set of its own pair. -/
theorem dedup_update (st : NotificationStore) (payload : NotificationPayload) (now : Nat)
    (o : String) (ho : o ≠ "") (horder : payload.orderId = some o)
    (hinv : dedupInvariant st) :
    dedupInvariant (NotificationStore.mk
      (updateFirst (notifMatches o (orNullStr payload.action)) (notifUpdater payload now)
        st.docs) st.nextId) := by
  intro oq aq
  refine Nat.le_trans (countP_updateFirst_le _ _ _ ?_ st.docs) (hinv oq aq)
  intro d hp hq
  obtain ⟨hdo, hda⟩ := notifMatches_keys hp
  obtain ⟨hfo, hfa⟩ := notifMatches_keys hq
  have hfo' : orNullStr payload.orderId = some oq := hfo
  have hfa' : orNullStr payload.action = aq := hfa
  have hoo : o = oq := by
    rw [horder] at hfo'
    dsimp only [orNullStr] at hfo'
    rw [if_neg ho] at hfo'
    injection hfo'
  unfold notifMatches
  simp only [Bool.and_eq_true, Bool.or_eq_true, beq_iff_eq]
  exact ⟨⟨by rw [hdo, hoo], by rw [hda, hfa']⟩, notifMatches_status hp⟩

/-- One successful `createNotification` call preserves the dedup
invariant. -/
theorem createNotification_preserves_dedup (eventId : String)
    (payload : NotificationPayload) (now : Nat) (st st' : NotificationStore) (i : Nat)
    (hinv : dedupInvariant st)
    (h : createNotification eventId payload now st = .ok (st', i)) :
    dedupInvariant st' := by
  unfold createNotification at h
  by_cases he : eventId = ""
  · rw [if_pos he] at h; simp at h
  rw [if_neg he] at h
  by_cases hv : payload.title = "" ∨ payload.message = ""
  · rw [if_pos hv] at h; simp at h
  rw [if_neg hv] at h
  dsimp only at h
  cases horder : payload.orderId with
  | none =>
    rw [horder] at h
    dsimp only at h
    simp only [Except.ok.injEq, Prod.mk.injEq] at h
    obtain ⟨rfl, -⟩ := h
    apply dedup_append st payload now hinv
    intro o a hm
    exfalso
    have hkey : orNullStr payload.orderId = some o := (notifMatches_keys hm).1
    rw [horder] at hkey
    exact Option.noConfusion hkey
  | some o =>
    rw [horder] at h
    dsimp only at h
    by_cases ho : o = ""
    · rw [if_pos ho] at h
      simp only [Except.ok.injEq, Prod.mk.injEq] at h
      obtain ⟨rfl, -⟩ := h
      apply dedup_append st payload now hinv
      intro oq aq hm
      exfalso
      have hkey : orNullStr payload.orderId = some oq := (notifMatches_keys hm).1
      rw [horder] at hkey
      dsimp only [orNullStr] at hkey
      rw [if_pos ho] at hkey
      exact Option.noConfusion hkey
    · rw [if_neg ho] at h
      cases hfind : st.docs.find? (notifMatches o (orNullStr payload.action)) with
      | some d =>
        rw [hfind] at h
        dsimp only at h
        simp only [Except.ok.injEq, Prod.mk.injEq] at h
        obtain ⟨rfl, -⟩ := h
        exact dedup_update st payload now o ho horder hinv
      | none =>
        rw [hfind] at h
        simp only [Except.ok.injEq, Prod.mk.injEq] at h
        obtain ⟨rfl, -⟩ := h
        apply dedup_append st payload now hinv
        intro oq aq hm
        obtain ⟨hk1, hk2⟩ := notifMatches_keys hm
        have h2 : orNullStr payload.orderId = some oq := hk1
        rw [horder] at h2
        dsimp only [orNullStr] at h2
        rw [if_neg ho] at h2
        injection h2 with h2
        have hk2' : orNullStr payload.action = aq := hk2
        subst h2
        rw [← hk2']
        refine List.countP_eq_zero.mpr ?_
        intro d hd
        have := List.find?_eq_none.mp hfind d hd
        simpa using this

/-- Any sequence of emissions preserves the dedup invariant. -/
theorem processNotificationCalls_preserves_dedup (eventId : String)
    (calls : List (NotificationPayload × Nat)) :
    ∀ st : NotificationStore, dedupInvariant st →
      dedupInvariant (processNotificationCalls eventId calls st) := by
  induction calls with
  | nil => intro st h; exact h
  | cons c cs ih =>
    intro st h
    have hstep : processNotificationCalls eventId (c :: cs) st
        = processNotificationCalls eventId cs
            (match createNotification eventId c.1 c.2 st with
             | .ok r => r.1
             | .error _ => st) := rfl
    rw [hstep]
    cases hc : createNotification eventId c.1 c.2 st with
    | ok r =>
      exact ih r.1 (createNotification_preserves_dedup eventId c.1 c.2 st r.1 r.2 h
        (by rw [hc]))
    | error msg =>
      exact ih st h

/-- C9: for a fixed pair `(orderId, action)` with the order id present,
after any sequence of `CreateNotification` calls at most one notification
document with status in `{created, in_progress}` exists (given the
invariant held initially, e.g. from an empty collection); and a repeated
emission for a pair that already has a non-terminal document updates that
document in place — refreshing `updatedAt`, keeping `createdAt` and the
collection size — and returns its id instead of inserting a new
document. -/
theorem C9_notification_dedup :
    (∀ (eventId : String) (calls : List (NotificationPayload × Nat))
        (st : NotificationStore), dedupInvariant st →
      dedupInvariant (processNotificationCalls eventId calls st)) ∧
    (∀ (eventId : String) (payload : NotificationPayload) (now : Nat)
        (st : NotificationStore) (o : String) (d : NotificationDoc),
      dedupInvariant st → payload.orderId = some o → o ≠ "" →
      d ∈ st.docs → notifMatches o (orNullStr payload.action) d = true →
      eventId ≠ "" → payload.title ≠ "" → payload.message ≠ "" →
      ∃ st', createNotification eventId payload now st = .ok (st', d.docId) ∧
        st'.docs.length = st.docs.length ∧
        ∃ d', d' ∈ st'.docs ∧ d'.docId = d.docId ∧ d'.updatedAt = some now ∧
          d'.createdAt = d.createdAt) := by
  constructor
  · intro eventId calls st h
    exact processNotificationCalls_preserves_dedup eventId calls st h
  · intro eventId payload now st o d hinv horder ho hd hm he ht hmsg
    have hfind : st.docs.find? (notifMatches o (orNullStr payload.action)) = some d :=
      find?_of_countP_le_one _ st.docs d (hinv o (orNullStr payload.action)) hd hm
    refine ⟨NotificationStore.mk
      (updateFirst (notifMatches o (orNullStr payload.action)) (notifUpdater payload now)
        st.docs) st.nextId, ?_, ?_, ?_⟩
    · unfold createNotification
      rw [if_neg he, if_neg (by push_neg; exact ⟨ht, hmsg⟩)]
      dsimp only
      rw [horder]
      dsimp only
      rw [if_neg ho, hfind]
    · exact length_updateFirst _ _ st.docs
    · exact ⟨notifUpdater payload now d,
        updateFirst_mem_image _ _ st.docs d hfind, rfl, rfl, rfl⟩

/-- C9 witness: the empty collection satisfies the invariant after one
emission, and re-emitting the refund notification for order `o1` against
a store that already holds one non-terminal copy updates it in place and
returns its id. -/
theorem C9_notification_dedup_witness :
    dedupInvariant (processNotificationCalls "e1" [(c9Payload, 5)]
      { docs := [], nextId := 0 }) ∧
    (∃ st', createNotification "e1" c9Payload 7 c9Store = .ok (st', c9Doc0.docId) ∧
      st'.docs.length = c9Store.docs.length ∧
      ∃ d', d' ∈ st'.docs ∧ d'.docId = c9Doc0.docId ∧ d'.updatedAt = some 7 ∧
        d'.createdAt = c9Doc0.createdAt) := by
  constructor
  · exact C9_notification_dedup.1 "e1" [(c9Payload, 5)] { docs := [], nextId := 0 }
      (fun o a => by simp)
  · exact C9_notification_dedup.2 "e1" c9Payload 7 c9Store "o1" c9Doc0
      (fun o a => by
        have hle : c9Store.docs.countP (notifMatches o a) ≤ c9Store.docs.length :=
          List.countP_le_length _
        simpa [c9Store] using hle)
      rfl (by decide) (by simp [c9Store]) (by decide) (by decide) (by decide) (by decide)

end OrderCat
